import Mathlib

/-!
# Verification of the bubble-mongo-linker reconciliation core

Shallow embedding of `src/jobs/processor.ts` (the record reconciliation
core): the pure normalizer functions `normalizeString` / `normalizeUrl`,
the Mongo query semantics the processor relies on, and the per-record
reconciliation function `processBubbleData`.

Modelling conventions:
* JS strings are Lean `String`s (lists of Unicode scalar values);
  `string | undefined` parameters are `Option String`.
* `String.prototype.toLowerCase` is modelled on the Basic Latin range
  (`A`-`Z` mapped to `a`-`z`, all other scalars fixed), which covers every
  input the claims mention.
* Mongo documents are Lean structures; `ObjectId`s are `Nat`s handed out
  by a counter in the store; a collection is a list of documents.
* `$regex` filters (always applied here to patterns produced by the
  normalizers) are modelled as literal substring containment,
  case-insensitive when the source passes the `'i'` flag.
* `processBubbleData` is split at its storage await points into a read
  phase `planOf` (fetch result → dedup key → `findOne` → matcher) and a
  write phase `applyPlan` (`updateOne` / `insertOne`), so that the state
  seen by the lookup and the state hit by the write can differ, exactly as
  they can between two concurrent workers.  The sequential semantics is
  their composition at a single state.
* A thrown storage error is `Except.error ()`: the processor's `catch`
  block re-throws every non-Axios error (line 148 of the source), so a
  duplicate-key rejection surfaces to the caller as a thrown error.
-/

deriving instance DecidableEq for Except

namespace BubbleLinker

/-! ## Normalizer (processor.ts lines 15-28) -/

/-- Code points matched by the JS regex class `\s`
(whitespace and line terminators). -/
def jsWhitespaceCodes : List Nat :=
  [9, 10, 11, 12, 13, 32, 160, 5760, 8192, 8193, 8194, 8195, 8196, 8197,
   8198, 8199, 8200, 8201, 8202, 8232, 8233, 8239, 8287, 12288, 65279]

def isJsWhitespace (c : Char) : Bool :=
  jsWhitespaceCodes.contains c.toNat

/-- Code points of the punctuation stripped by `normalizeString`'s regex
class, i.e. `. , / # ! $ % ^ & * ; : { } = - _ ` ~ ( ) '` (in that order:
46 44 47 35 33 36 37 94 38 42 59 58 123 125 61 45 95 96 126 40 41 39). -/
def strippedPunctCodes : List Nat :=
  [46, 44, 47, 35, 33, 36, 37, 94, 38, 42, 59, 58, 123, 125, 61, 45, 95,
   96, 126, 40, 41, 39]

/-- The full character class of `normalizeString`'s `replace`:
whitespace (`\s`) plus the punctuation listed above. -/
def isStrippedChar (c : Char) : Bool :=
  isJsWhitespace c || strippedPunctCodes.contains c.toNat

/-- Model of `String.prototype.toLowerCase` restricted to Basic Latin:
`A`-`Z` (65-90) map to `a`-`z` (97-122), everything else is fixed. -/
def jsToLower (c : Char) : Char :=
  if h : 65 ≤ c.toNat ∧ c.toNat ≤ 90 then
    Char.ofNatAux (c.toNat + 32) (Or.inl (by omega))
  else c

/-- Model of `String.prototype.trim`: drop leading and trailing whitespace. -/
def jsTrim (l : List Char) : List Char :=
  ((l.dropWhile isJsWhitespace).reverse.dropWhile isJsWhitespace).reverse

/-- Core of `normalizeString` (line 17):
`str.toLowerCase().replace(classRegex, "").trim()`. -/
def normalizeStringL (l : List Char) : List Char :=
  jsTrim ((l.map jsToLower).filter (fun c => !isStrippedChar c))

/-- Function `normalizeString` (lines 15-18): falsy input (undefined or empty)
yields the empty string, otherwise lower-case, strip the class, trim. -/
def normalizeString : Option String → String
  | none => ""
  | some s => if s.isEmpty then "" else String.mk (normalizeStringL s.toList)

/-- Model of the platform `new URL(url)` constructor, restricted to
absolute http/https URLs: succeeds iff the input starts (scheme matched
case-insensitively) with `https://` or `http://`, returning the rest. -/
def urlSchemeRest (l : List Char) : Option (List Char) :=
  if List.isPrefixOf "https://".toList (l.map jsToLower) then some (l.drop 8)
  else if List.isPrefixOf "http://".toList (l.map jsToLower) then some (l.drop 7)
  else none

/-- Hostname of a parsed URL: the authority up to the first `/`, `:`,
`?` or `#`, lower-cased (the URL standard lower-cases the host); an empty
host is a parse failure.  Inputs that do not carry an http/https scheme
are treated as parse failures (`new URL` would throw). -/
def urlHostnameL (l : List Char) : Option (List Char) :=
  match urlSchemeRest l with
  | none => none
  | some r =>
    let host := r.takeWhile (fun c => !(c == '/' || c == ':' || c == '?' || c == '#'))
    if host.isEmpty then none else some (host.map jsToLower)

/-- The catch-branch text surgery of `normalizeUrl` (line 26), applied to
the already lower-cased input: the regex
`^(https?:\/\/)?(www\.)?` strips an optional scheme then an optional
`www.` prefix. -/
def stripSchemeWwwL (l : List Char) : List Char :=
  let s1 := if List.isPrefixOf "https://".toList l then l.drop 8
            else if List.isPrefixOf "http://".toList l then l.drop 7
            else l
  if List.isPrefixOf "www.".toList s1 then s1.drop 4 else s1

/-- Function `normalizeUrl` (lines 20-28): falsy input yields `""`; a parseable
URL yields its hostname with a leading `www.` stripped; otherwise the
input is lower-cased, a leading scheme and `www.` are stripped, and the
substring before the first `/` is taken (`split('/')[0]`). -/
def normalizeUrl : Option String → String
  | none => ""
  | some u =>
    if u.isEmpty then ""
    else
      match urlHostnameL u.toList with
      | some h => String.mk (if List.isPrefixOf "www.".toList h then h.drop 4 else h)
      | none =>
        String.mk ((stripSchemeWwwL (u.toList.map jsToLower)).takeWhile (fun c => !(c == '/')))

/-! ## Data model -/

/-- JS truthiness of a `string | undefined` value. -/
def strTruthy : Option String → Bool
  | none => false
  | some s => !s.isEmpty

/-- JS `a || b` on `string | undefined` values. -/
def jsOrStr (a b : Option String) : Option String :=
  if strTruthy a then a else b

/-- The incoming record fetched from the Bubble API (the fields the
processor reads). -/
structure BubbleRecord where
  site_1 : Option String
  full_address_1 : Option String
  name_1 : Option String
  phone_1 : Option String
  email_1 : Option String
  Unique_ID_1 : Option String
  Unique_ID : Option String
deriving DecidableEq

/-- A document of the (read-only) business collection; `oid` models the
Mongo `_id` ObjectId, `contact_phone` the nested `contact.phone` field. -/
structure BusinessDoc where
  oid : Nat
  old_pin_code : Option String
  name : Option String
  website : Option String
  contact_phone : Option String
deriving DecidableEq

/-- An Authoritative Link Record as inserted by the processor
(lines 120-131); `oid` models the Mongo `_id`. -/
structure AuthDoc where
  oid : Nat
  website_normalized : String
  address_normalized : String
  name : Option String
  website : Option String
  address : Option String
  phone : Option String
  email : Option String
  bubble_ids : List String
  mongo_business_id : Option Nat
  match_type : String
  created_at : Nat
  updated_at : Nat
deriving DecidableEq

/-- An authoritative document before the store assigns its `_id`. -/
structure NewAuthDoc where
  website_normalized : String
  address_normalized : String
  name : Option String
  website : Option String
  address : Option String
  phone : Option String
  email : Option String
  bubble_ids : List String
  mongo_business_id : Option Nat
  match_type : String
  created_at : Nat
  updated_at : Nat
deriving DecidableEq

/-- The authoritative link collection: its documents plus the counter
from which inserted documents get their `_id`. -/
structure AuthStore where
  docs : List AuthDoc
  nextId : Nat
deriving DecidableEq

/-- The `mongoMatch` local of the processor (line 93). -/
structure MongoMatch where
  mongo_business_id : Option Nat
  match_type : String
deriving DecidableEq

/-- The result object returned by `processBubbleData`. -/
structure JobResult where
  status : String
  match_type : Option String
  reason : Option String
  bubbleId : String
deriving DecidableEq

/-! ## Mongo query semantics used by the processor -/

/-- Predicate `containsSub needle hay`: `needle` occurs as a contiguous sublist of
`hay`. -/
def containsSub (needle : List Char) : List Char → Bool
  | [] => needle.isEmpty
  | c :: t => needle.isPrefixOf (c :: t) || containsSub needle t

/-- Case-insensitive literal substring containment: the semantics of
`{field: {$regex: new RegExp(pat, 'i')}}` for the metacharacter-free
patterns produced by the normalizers. -/
def ciContains (hay pat : String) : Bool :=
  containsSub (pat.toList.map jsToLower) (hay.toList.map jsToLower)

/-- One disjunct of the fallback query's `$or` (lines 104-109). -/
inductive QueryCond where
  | nameRegex (pat : String)
  | phoneRegex (digits : String)
deriving DecidableEq

/-- Whether a business document satisfies one `$or` disjunct; a `$regex`
filter does not match a document lacking the field. -/
def condMatches (d : BusinessDoc) : QueryCond → Bool
  | .nameRegex pat =>
    match d.name with
    | some v => ciContains v pat
    | none => false
  | .phoneRegex ds =>
    match d.contact_phone with
    | some v => containsSub ds.toList v.toList
    | none => false

/-- The fallback query of line 112:
`{$and: [{website: {$regex: RegExp(normalizeUrl(site),'i')}}, {$or: conds}]}`. -/
def matchesFallbackQuery (sitePat : String) (conds : List QueryCond) (d : BusinessDoc) : Bool :=
  (match d.website with
   | some v => ciContains v sitePat
   | none => false)
  && conds.any (condMatches d)

/-- A query the processor runs against the business collection
(recorded so theorems can state which tiers executed). -/
inductive BizQuery where
  | directIdLookup (uid : String)
  | fallbackFind (sitePat : String) (conds : List QueryCond)
deriving DecidableEq

/-! ## Link store operations -/

/-- The filter of `findOne(deDuplicationKey)` (line 79) and of the unique
index `{website_normalized: 1, address_normalized: 1}` (line 40). -/
def keyMatches (wn an : String) (d : AuthDoc) : Bool :=
  d.website_normalized == wn && d.address_normalized == an

/-- Model of `authoritativeCollection.findOne(deDuplicationKey)`: first document
with the given dedup key. -/
def findOneByKey (st : AuthStore) (wn an : String) : Option AuthDoc :=
  st.docs.find? (keyMatches wn an)

/-- The per-document effect of
`updateOne({_id}, {$addToSet: {bubble_ids: bid}})` (lines 82-85): on the
document with the targeted `_id`, add `bid` to `bubble_ids` unless
already present; leave other documents alone. -/
def updBubbleIds (docId : Nat) (bid : String) (d : AuthDoc) : AuthDoc :=
  if d.oid == docId then
    { d with bubble_ids := if d.bubble_ids.contains bid then d.bubble_ids
                           else d.bubble_ids ++ [bid] }
  else d

/-- Model of `updateOne({_id}, {$addToSet: {bubble_ids: bid}})` on the store. -/
def addToSetBubbleId (st : AuthStore) (docId : Nat) (bid : String) : AuthStore :=
  { st with docs := st.docs.map (updBubbleIds docId bid) }

def withId (d : NewAuthDoc) (i : Nat) : AuthDoc :=
  { oid := i,
    website_normalized := d.website_normalized, address_normalized := d.address_normalized,
    name := d.name, website := d.website, address := d.address,
    phone := d.phone, email := d.email,
    bubble_ids := d.bubble_ids, mongo_business_id := d.mongo_business_id,
    match_type := d.match_type, created_at := d.created_at, updated_at := d.updated_at }

/-- Model of `insertOne` under the unique index on
`(website_normalized, address_normalized)` (line 40): the insert is
rejected (duplicate-key error) iff a document with the same key exists. -/
def insertOne (st : AuthStore) (d : NewAuthDoc) : Option AuthStore :=
  if st.docs.any (keyMatches d.website_normalized d.address_normalized) then none
  else some { docs := st.docs ++ [withId d st.nextId], nextId := st.nextId + 1 }

/-! ## The matcher (processor.ts lines 89-118) -/

/-- Model of `phone.replace(/\D/g, '')` (line 107). -/
def digitsOnly (s : String) : List Char :=
  s.toList.filter Char.isDigit

/-- The `queryConditions` array of lines 104-109: a name condition if
`name` is truthy, a phone condition if `phone` is truthy and its
digits-only form has more than 6 digits. -/
def fallbackQueryConds (r : BubbleRecord) : List QueryCond :=
  (if strTruthy r.name_1 then [QueryCond.nameRegex (normalizeString r.name_1)] else [])
  ++ (if strTruthy r.phone_1 then
        (match r.phone_1 with
         | some p =>
           if 6 < (digitsOnly p).length then [QueryCond.phoneRegex (String.mk (digitsOnly p))]
           else []
         | none => [])
      else [])

/-- Model of `businessCollection.findOne({old_pin_code: uid})` (line 97). -/
def directLookup (biz : List BusinessDoc) (u : String) : Option BusinessDoc :=
  biz.find? (fun d => d.old_pin_code == some u)

/-- The direct-ID tier (lines 95-101), starting from the initial
`{mongo_business_id: null, match_type: 'unmatched'}`; also returns the
business-collection queries it executed. -/
def directTier (biz : List BusinessDoc) (r : BubbleRecord) : MongoMatch × List BizQuery :=
  match jsOrStr r.Unique_ID_1 r.Unique_ID with
  | some u =>
    if u.isEmpty then (⟨none, "unmatched"⟩, [])
    else
      match directLookup biz u with
      | some d => (⟨some d.oid, "direct_id"⟩, [.directIdLookup u])
      | none => (⟨none, "unmatched"⟩, [.directIdLookup u])
  | none => (⟨none, "unmatched"⟩, [])

/-- The fallback tier (lines 103-118), guarded by
`if (!mongoMatch.mongo_business_id)` and `if (queryConditions.length > 0)`;
a result set of exactly one document yields `fallback_match`. -/
def fallbackTier (biz : List BusinessDoc) (r : BubbleRecord) (m1 : MongoMatch) :
    MongoMatch × List BizQuery :=
  if m1.mongo_business_id.isSome then (m1, [])
  else if (fallbackQueryConds r).isEmpty then (m1, [])
  else
    match biz.filter (matchesFallbackQuery (normalizeUrl r.site_1) (fallbackQueryConds r)) with
    | [d] => (⟨some d.oid, "fallback_match"⟩,
              [.fallbackFind (normalizeUrl r.site_1) (fallbackQueryConds r)])
    | _ => (m1, [.fallbackFind (normalizeUrl r.site_1) (fallbackQueryConds r)])

/-- The whole matcher section: direct-ID tier then fallback tier. -/
def matcherOf (biz : List BusinessDoc) (r : BubbleRecord) : MongoMatch × List BizQuery :=
  ((fallbackTier biz r (directTier biz r).1).1,
   (directTier biz r).2 ++ (fallbackTier biz r (directTier biz r).1).2)

/-- The `newAuthoritativeDoc` object of lines 120-131. -/
def newDocOf (now : Nat) (bid : String) (r : BubbleRecord) (wn an : String) (m : MongoMatch) :
    NewAuthDoc :=
  { website_normalized := wn, address_normalized := an,
    name := r.name_1, website := r.site_1, address := r.full_address_1,
    phone := r.phone_1, email := r.email_1,
    bubble_ids := [bid],
    mongo_business_id := m.mongo_business_id, match_type := m.match_type,
    created_at := now, updated_at := now }

/-! ## The reconciliation function (processor.ts lines 49-150) -/

/-- The single storage mutation a reconciliation run performs. -/
inductive WritePlan where
  | noWrite (res : JobResult)
  | updatePlan (docId : Nat) (bid : String) (res : JobResult)
  | insertPlan (doc : NewAuthDoc) (res : JobResult)
deriving DecidableEq

/-- The read phase of `processBubbleData`: everything up to (and
excluding) the single write, computed from the fetch result, the business
collection, and the link store state seen by `findOne`. -/
def planOf (now : Nat) (bubbleId : String) (fetched : Option BubbleRecord)
    (biz : List BusinessDoc) (st : AuthStore) : WritePlan × List BizQuery :=
  match fetched with
  | none =>
    (.noWrite { status := "not_found", match_type := none,
                reason := some ("Record not found or accessible via API for bubbleId: " ++ bubbleId),
                bubbleId := bubbleId }, [])
  | some r =>
    let wn := normalizeUrl r.site_1
    let an := normalizeString r.full_address_1
    if wn.isEmpty && an.isEmpty then
      (.noWrite { status := "skipped", match_type := none,
                  reason := some "Missing website and address for de-duplication",
                  bubbleId := bubbleId }, [])
    else
      match findOneByKey st wn an with
      | some d =>
        (.updatePlan d.oid bubbleId
          { status := "success", match_type := some "duplicate", reason := none,
            bubbleId := bubbleId }, [])
      | none =>
        let m := matcherOf biz r
        (.insertPlan (newDocOf now bubbleId r wn an m.1)
          { status := "success", match_type := some m.1.match_type, reason := none,
            bubbleId := bubbleId }, m.2)

/-- The write phase: apply the planned mutation to the link store state
current at write time.  A rejected insert (duplicate key) is
`Except.error ()`: the source has no handler for it, so the `catch` block
re-throws it to the caller (line 148). -/
def applyPlan (p : WritePlan) (st : AuthStore) : Except Unit (JobResult × AuthStore) :=
  match p with
  | .noWrite res => .ok (res, st)
  | .updatePlan docId bid res => .ok (res, addToSetBubbleId st docId bid)
  | .insertPlan d res =>
    match insertOne st d with
    | some st' => .ok (res, st')
    | none => .error ()

/-- Function `processBubbleData` run without interference: read phase and write
phase against the same state.  Also returns the business-collection
queries executed. -/
def processBubbleData (now : Nat) (bubbleId : String) (fetched : Option BubbleRecord)
    (biz : List BusinessDoc) (st : AuthStore) :
    Except Unit (JobResult × AuthStore × List BizQuery) :=
  let pq := planOf now bubbleId fetched biz st
  match applyPlan pq.1 st with
  | .ok (res, st') => .ok (res, st', pq.2)
  | .error e => .error e

/-! ## Invariants and statement predicates -/

/-- Two authoritative documents with the same dedup key. -/
def sameKey (d1 d2 : AuthDoc) : Prop :=
  d1.website_normalized = d2.website_normalized ∧ d1.address_normalized = d2.address_normalized

instance : DecidablePred fun p : AuthDoc × AuthDoc => sameKey p.1 p.2 :=
  fun _ => by unfold sameKey; infer_instance

/-- At most one Authoritative Link Record per distinct dedup key. -/
def KeyUnique (st : AuthStore) : Prop :=
  st.docs.Pairwise (fun a b => ¬ sameKey a b)

/-- Every stored `_id` is below the store's counter (so freshly inserted
documents get an unused `_id`). -/
def IdsFresh (st : AuthStore) : Prop :=
  ∀ d ∈ st.docs, d.oid < st.nextId

def WellFormedStore (st : AuthStore) : Prop :=
  KeyUnique st ∧ IdsFresh st

/-- Link-store states reachable from the empty collection by completed
write phases (of any interleaved workers: every mutation of the
collection in the source goes through `updateOne` or `insertOne`,
i.e. through `applyPlan`). -/
inductive Reachable : AuthStore → Prop
  | init : Reachable ⟨[], 0⟩
  | step {st st' : AuthStore} {p : WritePlan} {res : JobResult} :
      Reachable st → applyPlan p st = .ok (res, st') → Reachable st'

/-- Exactly one document with dedup key `(wn, an)` exists and its
`bubble_ids` contains both `b1` and `b2`. -/
def oneDocWithBoth (st : AuthStore) (wn an b1 b2 : String) : Bool :=
  match st.docs.filter (keyMatches wn an) with
  | [d] => d.bubble_ids.contains b1 && d.bubble_ids.contains b2
  | _ => false

/-! ## Helper lemmas about the normalizer -/

theorem ofNatAux_toNat (n : Nat) (h : n.isValidChar) : (Char.ofNatAux n h).toNat = n := rfl

theorem jsToLower_toNat_of_upper {c : Char} (h : 65 ≤ c.toNat ∧ c.toNat ≤ 90) :
    (jsToLower c).toNat = c.toNat + 32 := by
  unfold jsToLower
  rw [dif_pos h]
  exact ofNatAux_toNat _ _

theorem jsToLower_eq_of_not_upper {c : Char} (h : ¬(65 ≤ c.toNat ∧ c.toNat ≤ 90)) :
    jsToLower c = c := by
  unfold jsToLower
  rw [dif_neg h]

theorem jsToLower_idem (c : Char) : jsToLower (jsToLower c) = jsToLower c := by
  by_cases h : 65 ≤ c.toNat ∧ c.toNat ≤ 90
  · apply jsToLower_eq_of_not_upper
    rw [jsToLower_toNat_of_upper h]
    omega
  · rw [jsToLower_eq_of_not_upper h, jsToLower_eq_of_not_upper h]

theorem dropWhile_eq_self_of {p : Char → Bool} {l : List Char}
    (h : ∀ c ∈ l, p c = false) : l.dropWhile p = l := by
  cases l with
  | nil => rfl
  | cons a t => simp [List.dropWhile_cons, h a (List.mem_cons_self a t)]

theorem jsTrim_eq_self {l : List Char} (h : ∀ c ∈ l, isJsWhitespace c = false) :
    jsTrim l = l := by
  unfold jsTrim
  rw [dropWhile_eq_self_of h,
      dropWhile_eq_self_of (fun c hc => h c (List.mem_reverse.mp hc)),
      List.reverse_reverse]

theorem mem_of_mem_jsTrim {c : Char} {l : List Char} (h : c ∈ jsTrim l) : c ∈ l := by
  unfold jsTrim at h
  rw [List.mem_reverse] at h
  have h2 : c ∈ (l.dropWhile isJsWhitespace).reverse :=
    (List.dropWhile_sublist _).subset h
  rw [List.mem_reverse] at h2
  exact (List.dropWhile_sublist _).subset h2

theorem map_id_of {f : Char → Char} {l : List Char} (h : ∀ c ∈ l, f c = c) :
    l.map f = l := by
  induction l with
  | nil => rfl
  | cons a t ih =>
    simp only [List.map_cons]
    rw [h a (List.mem_cons_self a t), ih (fun c hc => h c (List.mem_cons_of_mem a hc))]

theorem normalizeStringL_chars {c : Char} {l : List Char} (h : c ∈ normalizeStringL l) :
    (∃ c0, c = jsToLower c0) ∧ isStrippedChar c = false := by
  unfold normalizeStringL at h
  have h1 := mem_of_mem_jsTrim h
  have h2 := List.mem_filter.mp h1
  refine ⟨?_, ?_⟩
  · obtain ⟨c0, _, hc0⟩ := List.mem_map.mp h2.1
    exact ⟨c0, hc0.symm⟩
  · have := h2.2
    simpa using this

theorem normalizeStringL_idem (l : List Char) :
    normalizeStringL (normalizeStringL l) = normalizeStringL l := by
  have hfix : ∀ c ∈ normalizeStringL l, jsToLower c = c := by
    intro c hc
    obtain ⟨⟨c0, hc0⟩, _⟩ := normalizeStringL_chars hc
    rw [hc0]
    exact jsToLower_idem c0
  have hkeep : ∀ c ∈ normalizeStringL l, isStrippedChar c = false := by
    intro c hc
    exact (normalizeStringL_chars hc).2
  rw [show normalizeStringL (normalizeStringL l)
        = jsTrim (((normalizeStringL l).map jsToLower).filter (fun c => !isStrippedChar c))
      from rfl]
  rw [map_id_of hfix, List.filter_eq_self.mpr (fun c hc => by simp [hkeep c hc])]
  apply jsTrim_eq_self
  intro c hc
  have h := hkeep c hc
  unfold isStrippedChar at h
  exact (Bool.or_eq_false_iff.mp h).1

/-! ## Claim theorems: normalizer -/

/-- C8: `normalizeHost` maps `"https://www.Example.com/path"` to
`"example.com"` and the unparseable `"not a url"` to `"not a url"`;
empty or undefined input yields the empty string; and a parse failure is
a handled branch (lower-case, strip a leading scheme and `www.`, take the
substring before the first `/`), never a thrown error (the function is
total by construction). -/
theorem C8_normalizeHost_examples_and_totality :
    normalizeUrl (some "https://www.Example.com/path") = "example.com" ∧
    normalizeUrl (some "not a url") = "not a url" ∧
    normalizeUrl none = "" ∧
    normalizeUrl (some "") = "" ∧
    (∀ u : String, u.isEmpty = false → urlHostnameL u.toList = none →
      normalizeUrl (some u) =
        String.mk ((stripSchemeWwwL (u.toList.map jsToLower)).takeWhile (fun c => !(c == '/')))) := by
  refine ⟨by decide, by decide, rfl, by decide, ?_⟩
  intro u hu hparse
  have hparse' : urlHostnameL u.data = none := hparse
  unfold normalizeUrl
  simp [hu, hparse']

theorem C8_normalizeHost_examples_and_totality_witness :
    ("not a url" : String).isEmpty = false ∧
    urlHostnameL ("not a url" : String).toList = none ∧
    normalizeUrl (some "not a url") =
      String.mk ((stripSchemeWwwL (("not a url" : String).toList.map jsToLower)).takeWhile
        (fun c => !(c == '/'))) :=
  ⟨by decide, by decide,
    C8_normalizeHost_examples_and_totality.2.2.2.2 "not a url" (by decide) (by decide)⟩

theorem normalizeString_some_of_not_empty {s : String} (h : ¬ s.isEmpty = true) :
    normalizeString (some s) = String.mk (normalizeStringL s.toList) := by
  simp [normalizeString, h]

/-- C9: `normalizeText` is idempotent: applying it twice equals applying
it once, for every string. -/
theorem C9_normalizeText_idempotent (s : String) :
    normalizeString (some (normalizeString (some s))) = normalizeString (some s) := by
  by_cases hs : s.isEmpty = true
  · have h1 : normalizeString (some s) = "" := by simp [normalizeString, hs]
    rw [h1]
    decide
  · rw [normalizeString_some_of_not_empty hs]
    by_cases ht : (String.mk (normalizeStringL s.toList)).isEmpty = true
    · have h2 : String.mk (normalizeStringL s.toList) = "" := (String.isEmpty_iff _).mp ht
      rw [h2]
      decide
    · rw [normalizeString_some_of_not_empty ht]
      show String.mk (normalizeStringL (normalizeStringL s.toList))
          = String.mk (normalizeStringL s.toList)
      rw [normalizeStringL_idem]

theorem C9_normalizeText_idempotent_witness :
    normalizeString (some (normalizeString (some "  Hello, World!  "))) =
      normalizeString (some "  Hello, World!  ") :=
  C9_normalizeText_idempotent "  Hello, World!  "

/-! ## Claim theorems: reconciler -/

/-- C7: a record whose dedup key has both components empty (normalized
website and normalized address both empty) yields the terminal outcome
`skipped`, with the link store unchanged and no business-collection query
executed (zero storage writes). -/
theorem C7_empty_key_skipped_no_writes (now : Nat) (bid : String) (r : BubbleRecord)
    (biz : List BusinessDoc) (st : AuthStore)
    (hw : normalizeUrl r.site_1 = "") (ha : normalizeString r.full_address_1 = "") :
    processBubbleData now bid (some r) biz st =
      .ok ({ status := "skipped", match_type := none,
             reason := some "Missing website and address for de-duplication",
             bubbleId := bid }, st, []) := by
  unfold processBubbleData planOf
  simp [hw, ha, applyPlan, show ("" : String).isEmpty = true from by decide]

def recNoKey : BubbleRecord :=
  { site_1 := none, full_address_1 := none, name_1 := some "Acme",
    phone_1 := none, email_1 := none, Unique_ID_1 := none, Unique_ID := none }

theorem C7_empty_key_skipped_no_writes_witness :
    normalizeUrl recNoKey.site_1 = "" ∧ normalizeString recNoKey.full_address_1 = "" ∧
    processBubbleData 0 "b0" (some recNoKey) [] ⟨[], 0⟩ =
      .ok ({ status := "skipped", match_type := none,
             reason := some "Missing website and address for de-duplication",
             bubbleId := "b0" }, ⟨[], 0⟩, []) :=
  ⟨rfl, rfl, C7_empty_key_skipped_no_writes 0 "b0" recNoKey [] ⟨[], 0⟩ rfl rfl⟩

theorem updBubbleIds_oid (i : Nat) (bid : String) (d : AuthDoc) :
    (updBubbleIds i bid d).oid = d.oid := by
  unfold updBubbleIds
  split
  · rfl
  · rfl

theorem keyMatches_updBubbleIds (wn an : String) (i : Nat) (bid : String) (d : AuthDoc) :
    keyMatches wn an (updBubbleIds i bid d) = keyMatches wn an d := by
  unfold updBubbleIds keyMatches
  split
  · rfl
  · rfl

theorem mem_updBubbleIds_self {i : Nat} (bid : String) (d : AuthDoc)
    (h : (d.oid == i) = true) : bid ∈ (updBubbleIds i bid d).bubble_ids := by
  unfold updBubbleIds
  rw [if_pos h]
  by_cases hc : d.bubble_ids.contains bid = true
  · simp only [hc, if_true]
    simpa using hc
  · rw [if_neg hc]
    simp

theorem updBubbleIds_of_mem {i : Nat} {bid : String} {d : AuthDoc}
    (h : bid ∈ d.bubble_ids) : updBubbleIds i bid d = d := by
  unfold updBubbleIds
  by_cases ho : (d.oid == i) = true
  · rw [if_pos ho, if_pos (by simpa using h)]
  · rw [if_neg ho]

theorem updBubbleIds_idem (i : Nat) (bid : String) (d : AuthDoc) :
    updBubbleIds i bid (updBubbleIds i bid d) = updBubbleIds i bid d := by
  by_cases h : (d.oid == i) = true
  · exact updBubbleIds_of_mem (mem_updBubbleIds_self bid d h)
  · have hd : updBubbleIds i bid d = d := by
      unfold updBubbleIds
      rw [if_neg h]
    rw [hd, hd]

theorem addToSet_stable (st : AuthStore) (i : Nat) (bid : String) :
    addToSetBubbleId (addToSetBubbleId st i bid) i bid = addToSetBubbleId st i bid := by
  obtain ⟨l, n⟩ := st
  show AuthStore.mk ((l.map (updBubbleIds i bid)).map (updBubbleIds i bid)) n
      = AuthStore.mk (l.map (updBubbleIds i bid)) n
  rw [List.map_map]
  exact congrArg (fun x => AuthStore.mk x n)
    (List.map_congr_left (fun d0 _ => updBubbleIds_idem i bid d0))

/-- C6: when an Authoritative Link Record with the incoming dedup key
already exists, reconciliation adds the identifier to its `bubble_ids`
with `$addToSet` (set) semantics and returns outcome `duplicate`; and
re-running reconciliation with the same identifier leaves the store
literally unchanged (idempotent, no duplicate entries). -/
theorem C6_duplicate_merge_and_idempotence (now now2 : Nat) (bid : String) (r : BubbleRecord)
    (biz biz2 : List BusinessDoc) (st : AuthStore) (d : AuthDoc)
    (hne : ((normalizeUrl r.site_1).isEmpty && (normalizeString r.full_address_1).isEmpty) = false)
    (hfind : findOneByKey st (normalizeUrl r.site_1) (normalizeString r.full_address_1) = some d) :
    processBubbleData now bid (some r) biz st =
      .ok ({ status := "success", match_type := some "duplicate", reason := none, bubbleId := bid },
           addToSetBubbleId st d.oid bid, []) ∧
    (updBubbleIds d.oid bid d ∈ (addToSetBubbleId st d.oid bid).docs ∧
     (updBubbleIds d.oid bid d).oid = d.oid ∧ bid ∈ (updBubbleIds d.oid bid d).bubble_ids) ∧
    processBubbleData now2 bid (some r) biz2 (addToSetBubbleId st d.oid bid) =
      .ok ({ status := "success", match_type := some "duplicate", reason := none, bubbleId := bid },
           addToSetBubbleId st d.oid bid, []) := by
  have hdmem := List.mem_of_find?_eq_some hfind
  refine ⟨?_, ?_, ?_⟩
  · unfold processBubbleData planOf
    simp [hne, hfind, applyPlan]
  · exact ⟨List.mem_map_of_mem _ hdmem,
      updBubbleIds_oid _ _ _, mem_updBubbleIds_self bid d (by simp)⟩
  · have hfind' : st.docs.find?
        (keyMatches (normalizeUrl r.site_1) (normalizeString r.full_address_1)) = some d := hfind
    have hfind2 : findOneByKey (addToSetBubbleId st d.oid bid)
        (normalizeUrl r.site_1) (normalizeString r.full_address_1) =
        some (updBubbleIds d.oid bid d) := by
      unfold findOneByKey addToSetBubbleId
      rw [List.find?_map,
        show (keyMatches (normalizeUrl r.site_1) (normalizeString r.full_address_1) ∘
            updBubbleIds d.oid bid)
          = keyMatches (normalizeUrl r.site_1) (normalizeString r.full_address_1)
        from funext (fun d0 => keyMatches_updBubbleIds _ _ _ _ d0)]
      rw [hfind']
      rfl
    unfold processBubbleData planOf
    simp [hne, hfind2, applyPlan, updBubbleIds_oid, addToSet_stable]

/-- Concrete inputs exercising the duplicate-merge path. -/
def recDup : BubbleRecord :=
  { site_1 := some "https://www.acme.com", full_address_1 := some "1 Main St.",
    name_1 := some "Acme", phone_1 := none, email_1 := none,
    Unique_ID_1 := none, Unique_ID := none }

def dupDoc : AuthDoc :=
  { oid := 0, website_normalized := "acme.com", address_normalized := "1mainst",
    name := some "Acme", website := some "https://www.acme.com",
    address := some "1 Main St.", phone := none, email := none,
    bubble_ids := ["b1"], mongo_business_id := none, match_type := "unmatched",
    created_at := 0, updated_at := 0 }

def dupStore : AuthStore := ⟨[dupDoc], 1⟩

theorem C6_duplicate_merge_and_idempotence_witness :
    ((normalizeUrl recDup.site_1).isEmpty && (normalizeString recDup.full_address_1).isEmpty)
        = false ∧
    (processBubbleData 7 "b2" (some recDup) [] dupStore =
      .ok ({ status := "success", match_type := some "duplicate", reason := none,
             bubbleId := "b2" }, addToSetBubbleId dupStore dupDoc.oid "b2", []) ∧
     (updBubbleIds dupDoc.oid "b2" dupDoc ∈ (addToSetBubbleId dupStore dupDoc.oid "b2").docs ∧
      (updBubbleIds dupDoc.oid "b2" dupDoc).oid = dupDoc.oid ∧
      "b2" ∈ (updBubbleIds dupDoc.oid "b2" dupDoc).bubble_ids) ∧
     processBubbleData 8 "b2" (some recDup) [] (addToSetBubbleId dupStore dupDoc.oid "b2") =
      .ok ({ status := "success", match_type := some "duplicate", reason := none,
             bubbleId := "b2" }, addToSetBubbleId dupStore dupDoc.oid "b2", [])) :=
  ⟨by decide,
   C6_duplicate_merge_and_idempotence 7 8 "b2" recDup [] [] dupStore dupDoc
     (by decide) (by decide)⟩

theorem find?_eq_of_filter_singleton {α : Type} {p : α → Bool} {l : List α} {d : α}
    (h : l.filter p = [d]) : l.find? p = some d := by
  induction l with
  | nil => simp at h
  | cons a t ih =>
    by_cases ha : p a = true
    · rw [List.filter_cons_of_pos ha] at h
      rw [List.find?_cons_of_pos t ha]
      exact congrArg some (List.cons.injEq .. |>.mp h).1
    · rw [List.filter_cons_of_neg (by simpa using ha)] at h
      rw [List.find?_cons_of_neg t ha]
      exact ih h

theorem any_key_false_of_find?_none {st : AuthStore} {wn an : String}
    (h : findOneByKey st wn an = none) :
    st.docs.any (keyMatches wn an) = false := by
  rw [List.any_eq_false]
  intro a ha
  exact List.find?_eq_none.mp h a ha

/-- C5: a record carrying a legacy unique identifier that equals the
`old_pin_code` of exactly one business entity yields
`match_type = direct_id` with that entity's id, and the fallback tier is
not attempted: the only business-collection query executed is the
direct-ID lookup, whatever website/name/phone would have matched. -/
theorem C5_direct_id_short_circuits_fallback (now : Nat) (bid : String) (r : BubbleRecord)
    (biz : List BusinessDoc) (st : AuthStore) (u : String) (dB : BusinessDoc)
    (hne : ((normalizeUrl r.site_1).isEmpty && (normalizeString r.full_address_1).isEmpty) = false)
    (hmiss : findOneByKey st (normalizeUrl r.site_1) (normalizeString r.full_address_1) = none)
    (huid : jsOrStr r.Unique_ID_1 r.Unique_ID = some u)
    (hu : u.isEmpty = false)
    (hone : biz.filter (fun d => d.old_pin_code == some u) = [dB]) :
    processBubbleData now bid (some r) biz st =
      .ok ({ status := "success", match_type := some "direct_id", reason := none,
             bubbleId := bid },
           ⟨st.docs ++ [withId (newDocOf now bid r (normalizeUrl r.site_1)
               (normalizeString r.full_address_1) ⟨some dB.oid, "direct_id"⟩) st.nextId],
            st.nextId + 1⟩,
           [BizQuery.directIdLookup u]) := by
  have hdirect : directLookup biz u = some dB := find?_eq_of_filter_singleton hone
  have hany := any_key_false_of_find?_none hmiss
  unfold processBubbleData planOf matcherOf directTier fallbackTier
  simp [hne, hmiss, huid, hu, hdirect, applyPlan, insertOne, newDocOf, hany]

/-- Concrete inputs exercising the direct-ID path: the fallback query
would also have matched (a different) business, but the legacy id wins. -/
def recPin : BubbleRecord :=
  { site_1 := some "https://www.acme.com", full_address_1 := some "1 Main St.",
    name_1 := some "Acme", phone_1 := none, email_1 := none,
    Unique_ID_1 := some "PIN7", Unique_ID := none }

def bizPin : List BusinessDoc :=
  [{ oid := 3, old_pin_code := none, name := some "Acme Corp",
     website := some "acme.com", contact_phone := none },
   { oid := 5, old_pin_code := some "PIN7", name := some "Totally Different",
     website := some "elsewhere.example", contact_phone := none }]

theorem C5_direct_id_short_circuits_fallback_witness :
    ((normalizeUrl recPin.site_1).isEmpty && (normalizeString recPin.full_address_1).isEmpty)
        = false ∧
    processBubbleData 0 "b9" (some recPin) bizPin ⟨[], 0⟩ =
      .ok ({ status := "success", match_type := some "direct_id", reason := none,
             bubbleId := "b9" },
           ⟨[withId (newDocOf 0 "b9" recPin (normalizeUrl recPin.site_1)
               (normalizeString recPin.full_address_1) ⟨some 5, "direct_id"⟩) 0],
            1⟩,
           [BizQuery.directIdLookup "PIN7"]) := by
  constructor
  · decide
  · have h := C5_direct_id_short_circuits_fallback 0 "b9" recPin bizPin ⟨[], 0⟩ "PIN7"
      { oid := 5, old_pin_code := some "PIN7", name := some "Totally Different",
        website := some "elsewhere.example", contact_phone := none }
      (by decide) (by decide) (by decide) (by decide) (by decide)
    exact h

theorem fallbackTier_of_not_one {biz : List BusinessDoc} {r : BubbleRecord}
    (hconds : fallbackQueryConds r ≠ [])
    (hms : (biz.filter (matchesFallbackQuery (normalizeUrl r.site_1)
        (fallbackQueryConds r))).length ≠ 1) :
    fallbackTier biz r ⟨none, "unmatched"⟩ =
      (⟨none, "unmatched"⟩,
       [.fallbackFind (normalizeUrl r.site_1) (fallbackQueryConds r)]) := by
  unfold fallbackTier
  rw [if_neg (by simp)]
  rw [if_neg (by simpa using hconds)]
  cases hm : biz.filter (matchesFallbackQuery (normalizeUrl r.site_1) (fallbackQueryConds r)) with
  | nil => rfl
  | cons a t =>
    cases t with
    | nil => exact absurd (by rw [hm]; rfl) hms
    | cons b t2 => rfl

theorem fallbackTier_skipped_of_some {biz : List BusinessDoc} {r : BubbleRecord}
    {m1 : MongoMatch} (h : m1.mongo_business_id.isSome = true) :
    fallbackTier biz r m1 = (m1, []) := by
  unfold fallbackTier
  rw [if_pos h]

theorem fallbackTier_of_one {biz : List BusinessDoc} {r : BubbleRecord} {d : BusinessDoc}
    (hconds : fallbackQueryConds r ≠ [])
    (hms : biz.filter (matchesFallbackQuery (normalizeUrl r.site_1)
        (fallbackQueryConds r)) = [d]) :
    fallbackTier biz r ⟨none, "unmatched"⟩ =
      (⟨some d.oid, "fallback_match"⟩,
       [.fallbackFind (normalizeUrl r.site_1) (fallbackQueryConds r)]) := by
  unfold fallbackTier
  rw [if_neg (by simp)]
  rw [if_neg (by simpa using hconds)]
  rw [hms]

/-- C3: for a record that reaches the fallback tier (dedup miss, direct
tier found nothing, at least one secondary condition), `fallback_match`
is returned only when the fallback query's result set has exactly one
business entity; with two or more results the record is stored
`unmatched` with no business reference — never linked to the first
result. -/
theorem C3_fallback_unique_or_unmatched (now : Nat) (bid : String) (r : BubbleRecord)
    (biz : List BusinessDoc) (st : AuthStore)
    (hne : ((normalizeUrl r.site_1).isEmpty && (normalizeString r.full_address_1).isEmpty) = false)
    (hmiss : findOneByKey st (normalizeUrl r.site_1) (normalizeString r.full_address_1) = none)
    (hdm : (directTier biz r).1 = ⟨none, "unmatched"⟩)
    (hconds : fallbackQueryConds r ≠ []) :
    ((biz.filter (matchesFallbackQuery (normalizeUrl r.site_1) (fallbackQueryConds r))).length ≠ 1 →
      processBubbleData now bid (some r) biz st =
        .ok ({ status := "success", match_type := some "unmatched", reason := none,
               bubbleId := bid },
             ⟨st.docs ++ [withId (newDocOf now bid r (normalizeUrl r.site_1)
                 (normalizeString r.full_address_1) ⟨none, "unmatched"⟩) st.nextId],
              st.nextId + 1⟩,
             (directTier biz r).2
               ++ [BizQuery.fallbackFind (normalizeUrl r.site_1) (fallbackQueryConds r)])) ∧
    (∀ d : BusinessDoc,
      biz.filter (matchesFallbackQuery (normalizeUrl r.site_1) (fallbackQueryConds r)) = [d] →
      processBubbleData now bid (some r) biz st =
        .ok ({ status := "success", match_type := some "fallback_match", reason := none,
               bubbleId := bid },
             ⟨st.docs ++ [withId (newDocOf now bid r (normalizeUrl r.site_1)
                 (normalizeString r.full_address_1) ⟨some d.oid, "fallback_match"⟩) st.nextId],
              st.nextId + 1⟩,
             (directTier biz r).2
               ++ [BizQuery.fallbackFind (normalizeUrl r.site_1) (fallbackQueryConds r)])) := by
  have hany := any_key_false_of_find?_none hmiss
  constructor
  · intro hms
    have hft := fallbackTier_of_not_one hconds hms
    unfold processBubbleData planOf matcherOf
    simp [hne, hmiss, hdm, hft, applyPlan, insertOne, newDocOf, hany]
  · intro d hms
    have hft := fallbackTier_of_one hconds hms
    unfold processBubbleData planOf matcherOf
    simp [hne, hmiss, hdm, hft, applyPlan, insertOne, newDocOf, hany]

/-- Concrete inputs: two businesses both match the fallback query, the
record is stored unmatched. -/
def recAmb : BubbleRecord :=
  { site_1 := some "https://www.acme.com", full_address_1 := some "1 Main St.",
    name_1 := some "Acme", phone_1 := none, email_1 := none,
    Unique_ID_1 := none, Unique_ID := none }

def bizAmb : List BusinessDoc :=
  [{ oid := 1, old_pin_code := none, name := some "Acme East",
     website := some "acme.com", contact_phone := none },
   { oid := 2, old_pin_code := none, name := some "Acme West",
     website := some "shop.acme.com", contact_phone := none }]

theorem C3_fallback_unique_or_unmatched_witness :
    ((normalizeUrl recAmb.site_1).isEmpty && (normalizeString recAmb.full_address_1).isEmpty)
        = false ∧
    (bizAmb.filter (matchesFallbackQuery (normalizeUrl recAmb.site_1)
        (fallbackQueryConds recAmb))).length = 2 ∧
    processBubbleData 0 "b3" (some recAmb) bizAmb ⟨[], 0⟩ =
      .ok ({ status := "success", match_type := some "unmatched", reason := none,
             bubbleId := "b3" },
           ⟨[withId (newDocOf 0 "b3" recAmb (normalizeUrl recAmb.site_1)
               (normalizeString recAmb.full_address_1) ⟨none, "unmatched"⟩) 0],
            1⟩,
           (directTier bizAmb recAmb).2
             ++ [BizQuery.fallbackFind (normalizeUrl recAmb.site_1)
                   (fallbackQueryConds recAmb)]) :=
  ⟨by decide, by decide,
   (C3_fallback_unique_or_unmatched 0 "b3" recAmb bizAmb ⟨[], 0⟩
      (by decide) (by decide) (by decide) (by decide)).1 (by decide)⟩

theorem directTier_shape (biz : List BusinessDoc) (r : BubbleRecord) :
    (directTier biz r).1 = ⟨none, "unmatched"⟩ ∨
    ∃ i, (directTier biz r).1 = ⟨some i, "direct_id"⟩ := by
  unfold directTier
  cases h : jsOrStr r.Unique_ID_1 r.Unique_ID with
  | none => left; rfl
  | some u =>
    by_cases hu : u.isEmpty = true
    · left; simp [hu]
    · cases hd : directLookup biz u with
      | none => left; simp [hu, hd]
      | some d => right; exact ⟨d.oid, by simp [hu, hd]⟩

theorem fallbackTier_shape (biz : List BusinessDoc) (r : BubbleRecord) (m1 : MongoMatch) :
    (fallbackTier biz r m1).1 = m1 ∨
    ∃ i, (fallbackTier biz r m1).1 = ⟨some i, "fallback_match"⟩ := by
  unfold fallbackTier
  by_cases h1 : m1.mongo_business_id.isSome = true
  · rw [if_pos h1]; left; rfl
  · rw [if_neg h1]
    by_cases h2 : (fallbackQueryConds r).isEmpty = true
    · rw [if_pos h2]; left; rfl
    · rw [if_neg h2]
      cases hm : biz.filter (matchesFallbackQuery (normalizeUrl r.site_1) (fallbackQueryConds r)) with
      | nil => left; rfl
      | cons a t =>
        cases t with
        | nil => right; exact ⟨a.oid, rfl⟩
        | cons b t2 => left; rfl

theorem matcherOf_shape (biz : List BusinessDoc) (r : BubbleRecord) :
    (matcherOf biz r).1 = ⟨none, "unmatched"⟩ ∨
    (∃ i, (matcherOf biz r).1 = ⟨some i, "direct_id"⟩) ∨
    (∃ i, (matcherOf biz r).1 = ⟨some i, "fallback_match"⟩) := by
  have he : (matcherOf biz r).1 = (fallbackTier biz r (directTier biz r).1).1 := rfl
  rcases fallbackTier_shape biz r (directTier biz r).1 with hf | ⟨i, hf⟩
  · rcases directTier_shape biz r with hd | ⟨i, hd⟩
    · left; rw [he, hf, hd]
    · right; left; exact ⟨i, by rw [he, hf, hd]⟩
  · right; right; exact ⟨i, he ▸ hf⟩

theorem insertOne_some_shape {st : AuthStore} {d : NewAuthDoc} {st' : AuthStore}
    (h : insertOne st d = some st') :
    st' = ⟨st.docs ++ [withId d st.nextId], st.nextId + 1⟩ := by
  unfold insertOne at h
  by_cases hg : st.docs.any (keyMatches d.website_normalized d.address_normalized) = true
  · rw [if_pos hg] at h; cases h
  · rw [if_neg hg] at h
    exact (Option.some.injEq .. |>.mp h).symm

theorem processBubbleData_ok_inv {now : Nat} {bid : String} {fetched : Option BubbleRecord}
    {biz : List BusinessDoc} {st : AuthStore} {res : JobResult} {st' : AuthStore}
    {qs : List BizQuery}
    (h : processBubbleData now bid fetched biz st = .ok (res, st', qs)) :
    st' = st ∨
    (res.match_type = some "duplicate" ∧ ∃ i, st' = addToSetBubbleId st i bid) ∨
    (∃ r, fetched = some r ∧
      res.match_type = some (matcherOf biz r).1.match_type ∧
      st' = ⟨st.docs ++ [withId (newDocOf now bid r (normalizeUrl r.site_1)
          (normalizeString r.full_address_1) (matcherOf biz r).1) st.nextId],
        st.nextId + 1⟩) := by
  unfold processBubbleData planOf at h
  cases fetched with
  | none =>
    simp [applyPlan] at h
    left
    exact h.2.1.symm
  | some r =>
    by_cases hsk : ((normalizeUrl r.site_1).isEmpty && (normalizeString r.full_address_1).isEmpty) = true
    · simp [hsk, applyPlan] at h
      left
      exact h.2.1.symm
    · cases hf : findOneByKey st (normalizeUrl r.site_1) (normalizeString r.full_address_1) with
      | some d0 =>
        simp [hsk, hf, applyPlan] at h
        right; left
        exact ⟨by rw [← h.1], d0.oid, h.2.1.symm⟩
      | none =>
        cases hins : insertOne st (newDocOf now bid r (normalizeUrl r.site_1)
            (normalizeString r.full_address_1) (matcherOf biz r).1) with
        | none => simp [hsk, hf, hins, applyPlan] at h
        | some st1 =>
          simp [hsk, hf, hins, applyPlan] at h
          right; right
          refine ⟨r, rfl, by rw [← h.1], ?_⟩
          rw [← h.2.1]
          exact insertOne_some_shape hins

/-- C10: every newly inserted Authoritative Link Record has `bubble_ids`
equal to exactly the singleton of the processed identifier, and its
`mongo_business_id` is non-null iff its `match_type` is `direct_id` or
`fallback_match` (null exactly when `match_type` is `unmatched`). -/
theorem C10_inserted_doc_invariants (now : Nat) (bid : String) (fetched : Option BubbleRecord)
    (biz : List BusinessDoc) (st : AuthStore) (res : JobResult) (st' : AuthStore)
    (qs : List BizQuery) (d : AuthDoc)
    (hrun : processBubbleData now bid fetched biz st = .ok (res, st', qs))
    (hnotdup : res.match_type ≠ some "duplicate")
    (hd : d ∈ st'.docs) (hdnew : d ∉ st.docs) :
    d.bubble_ids = [bid] ∧
    (¬ d.mongo_business_id = none ↔ (d.match_type = "direct_id" ∨ d.match_type = "fallback_match")) ∧
    (d.mongo_business_id = none ↔ d.match_type = "unmatched") := by
  rcases processBubbleData_ok_inv hrun with h | ⟨hdup, _⟩ | ⟨r, _, _, hst⟩
  · exact absurd (h ▸ hd) hdnew
  · exact absurd hdup hnotdup
  · subst hst
    rcases List.mem_append.mp hd with h1 | h1
    · exact absurd h1 hdnew
    · have hone := List.mem_singleton.mp h1
      subst hone
      rcases matcherOf_shape biz r with hsh | ⟨i, hsh⟩ | ⟨i, hsh⟩ <;>
        refine ⟨rfl, ?_, ?_⟩ <;> simp [withId, newDocOf, hsh]

def recW10 : BubbleRecord :=
  { site_1 := some "https://www.w10.example", full_address_1 := none,
    name_1 := none, phone_1 := none, email_1 := none,
    Unique_ID_1 := none, Unique_ID := none }

theorem C10_inserted_doc_invariants_witness :
    (withId (newDocOf 0 "w10" recW10 (normalizeUrl recW10.site_1)
        (normalizeString recW10.full_address_1) (matcherOf [] recW10).1) 0).bubble_ids
      = ["w10"] ∧
    (¬ (withId (newDocOf 0 "w10" recW10 (normalizeUrl recW10.site_1)
        (normalizeString recW10.full_address_1) (matcherOf [] recW10).1) 0).mongo_business_id = none ↔
      ((withId (newDocOf 0 "w10" recW10 (normalizeUrl recW10.site_1)
        (normalizeString recW10.full_address_1) (matcherOf [] recW10).1) 0).match_type = "direct_id" ∨
       (withId (newDocOf 0 "w10" recW10 (normalizeUrl recW10.site_1)
        (normalizeString recW10.full_address_1) (matcherOf [] recW10).1) 0).match_type = "fallback_match")) ∧
    ((withId (newDocOf 0 "w10" recW10 (normalizeUrl recW10.site_1)
        (normalizeString recW10.full_address_1) (matcherOf [] recW10).1) 0).mongo_business_id = none ↔
     (withId (newDocOf 0 "w10" recW10 (normalizeUrl recW10.site_1)
        (normalizeString recW10.full_address_1) (matcherOf [] recW10).1) 0).match_type = "unmatched") :=
  C10_inserted_doc_invariants 0 "w10" (some recW10) [] ⟨[], 0⟩
    { status := "success", match_type := some "unmatched", reason := none, bubbleId := "w10" }
    ⟨[withId (newDocOf 0 "w10" recW10 (normalizeUrl recW10.site_1)
        (normalizeString recW10.full_address_1) (matcherOf [] recW10).1) 0], 1⟩
    [] _
    (by decide) (by decide) (by decide) (by decide)

theorem directTier_trace_shape (biz : List BusinessDoc) (r : BubbleRecord) :
    (directTier biz r).2 = [] ∨ ∃ u, (directTier biz r).2 = [.directIdLookup u] := by
  unfold directTier
  cases h : jsOrStr r.Unique_ID_1 r.Unique_ID with
  | none => left; rfl
  | some u =>
    by_cases hu : u.isEmpty = true
    · left; simp [hu]
    · right
      refine ⟨u, ?_⟩
      cases hd : directLookup biz u <;> simp [hu, hd]

theorem fallbackTier_trace (biz : List BusinessDoc) (r : BubbleRecord) (m1 : MongoMatch) :
    (fallbackTier biz r m1).2 =
      if m1.mongo_business_id.isSome then []
      else if (fallbackQueryConds r).isEmpty then []
      else [.fallbackFind (normalizeUrl r.site_1) (fallbackQueryConds r)] := by
  unfold fallbackTier
  by_cases h1 : m1.mongo_business_id.isSome = true
  · rw [if_pos h1, if_pos h1]
  · rw [if_neg h1, if_neg h1]
    by_cases h2 : (fallbackQueryConds r).isEmpty = true
    · rw [if_pos h2, if_pos h2]
    · rw [if_neg h2, if_neg h2]
      cases hm : biz.filter (matchesFallbackQuery (normalizeUrl r.site_1) (fallbackQueryConds r)) with
      | nil => rfl
      | cons a t =>
        cases t with
        | nil => rfl
        | cons b t2 => rfl

theorem processBubbleData_insert_run (now : Nat) (bid : String) (r : BubbleRecord)
    (biz : List BusinessDoc) (st : AuthStore)
    (hne : ((normalizeUrl r.site_1).isEmpty && (normalizeString r.full_address_1).isEmpty) = false)
    (hmiss : findOneByKey st (normalizeUrl r.site_1) (normalizeString r.full_address_1) = none) :
    processBubbleData now bid (some r) biz st =
      .ok ({ status := "success", match_type := some (matcherOf biz r).1.match_type,
             reason := none, bubbleId := bid },
           ⟨st.docs ++ [withId (newDocOf now bid r (normalizeUrl r.site_1)
               (normalizeString r.full_address_1) (matcherOf biz r).1) st.nextId],
            st.nextId + 1⟩,
           (matcherOf biz r).2) := by
  have hany := any_key_false_of_find?_none hmiss
  unfold processBubbleData planOf
  simp [hne, hmiss, applyPlan, insertOne, newDocOf, hany]

/-- C4 counterexample: a record with an empty website (no `site_1`) and a
name still executes the fallback-tier query — the website regex
degenerates to the empty pattern — and here even produces a
`fallback_match`, so the fallback tier is not restricted to records with
a non-empty website. -/
def recNoSite : BubbleRecord :=
  { site_1 := none, full_address_1 := some "1 Main St.", name_1 := some "Acme",
    phone_1 := none, email_1 := none, Unique_ID_1 := none, Unique_ID := none }

def bizNoSite : List BusinessDoc :=
  [{ oid := 4, old_pin_code := none, name := some "Acme Anywhere",
     website := some "whatever.example", contact_phone := none }]

/-- C4, counterexample to the claim as stated: `recNoSite` has an empty
website, yet its reconciliation executes the fallback query (the trace
contains the `fallbackFind` call, with the empty website pattern) and
returns `fallback_match`. -/
theorem C4_counterexample_empty_website_fallback_runs :
    normalizeUrl recNoSite.site_1 = "" ∧
    processBubbleData 0 "b4" (some recNoSite) bizNoSite ⟨[], 0⟩ =
      .ok ({ status := "success", match_type := some "fallback_match", reason := none,
             bubbleId := "b4" },
           ⟨[withId (newDocOf 0 "b4" recNoSite "" (normalizeString recNoSite.full_address_1)
               ⟨some 4, "fallback_match"⟩) 0], 1⟩,
           [BizQuery.fallbackFind "" [QueryCond.nameRegex "acme"]]) := by
  constructor
  · rfl
  · decide

/-- C4 (amended): for a record that reaches the matcher (fetched, usable
dedup key, dedup miss), the fallback-tier query is executed iff the
direct-ID tier produced no match and the record has at least one
secondary condition (a truthy name, or a truthy phone whose digits-only
form has more than 6 digits); a non-empty website is NOT required. -/
theorem C4_fallback_guard_amended (now : Nat) (bid : String) (r : BubbleRecord)
    (biz : List BusinessDoc) (st : AuthStore)
    (hne : ((normalizeUrl r.site_1).isEmpty && (normalizeString r.full_address_1).isEmpty) = false)
    (hmiss : findOneByKey st (normalizeUrl r.site_1) (normalizeString r.full_address_1) = none) :
    processBubbleData now bid (some r) biz st =
      .ok ({ status := "success", match_type := some (matcherOf biz r).1.match_type,
             reason := none, bubbleId := bid },
           ⟨st.docs ++ [withId (newDocOf now bid r (normalizeUrl r.site_1)
               (normalizeString r.full_address_1) (matcherOf biz r).1) st.nextId],
            st.nextId + 1⟩,
           (matcherOf biz r).2) ∧
    (BizQuery.fallbackFind (normalizeUrl r.site_1) (fallbackQueryConds r) ∈ (matcherOf biz r).2 ↔
      ((directTier biz r).1.mongo_business_id = none ∧ ¬ fallbackQueryConds r = [])) := by
  refine ⟨processBubbleData_insert_run now bid r biz st hne hmiss, ?_⟩
  have hnotin : BizQuery.fallbackFind (normalizeUrl r.site_1) (fallbackQueryConds r)
      ∉ (directTier biz r).2 := by
    rcases directTier_trace_shape biz r with h | ⟨u, h⟩ <;> simp [h]
  rw [show (matcherOf biz r).2
        = (directTier biz r).2 ++ (fallbackTier biz r (directTier biz r).1).2 from rfl]
  rw [List.mem_append, fallbackTier_trace]
  constructor
  · rintro (h | h)
    · exact absurd h hnotin
    · by_cases h1 : (directTier biz r).1.mongo_business_id.isSome = true
      · rw [if_pos h1] at h
        cases h
      · rw [if_neg h1] at h
        by_cases h2 : (fallbackQueryConds r).isEmpty = true
        · rw [if_pos h2] at h
          cases h
        · exact ⟨Option.not_isSome_iff_eq_none.mp h1, by simpa using h2⟩
  · rintro ⟨h1, h2⟩
    right
    rw [if_neg (by simp [h1]), if_neg (by simpa using h2)]
    exact List.mem_singleton.mpr rfl

theorem C4_fallback_guard_amended_witness :
    (processBubbleData 0 "b4w" (some recNoSite) bizNoSite ⟨[], 0⟩ =
      .ok ({ status := "success",
             match_type := some (matcherOf bizNoSite recNoSite).1.match_type,
             reason := none, bubbleId := "b4w" },
           ⟨[withId (newDocOf 0 "b4w" recNoSite (normalizeUrl recNoSite.site_1)
               (normalizeString recNoSite.full_address_1) (matcherOf bizNoSite recNoSite).1) 0],
            1⟩,
           (matcherOf bizNoSite recNoSite).2) ∧
    (BizQuery.fallbackFind (normalizeUrl recNoSite.site_1) (fallbackQueryConds recNoSite)
        ∈ (matcherOf bizNoSite recNoSite).2 ↔
      ((directTier bizNoSite recNoSite).1.mongo_business_id = none ∧
       ¬ fallbackQueryConds recNoSite = []))) :=
  C4_fallback_guard_amended 0 "b4w" recNoSite bizNoSite ⟨[], 0⟩ (by decide) (by decide)

/-- Two CRM records describing the same business (same dedup key),
processed by two concurrent workers. -/
def recRace : BubbleRecord :=
  { site_1 := some "https://www.race.example", full_address_1 := some "9 Race Rd.",
    name_1 := none, phone_1 := none, email_1 := none,
    Unique_ID_1 := none, Unique_ID := none }

/-- The store after the winning worker's insert committed. -/
def raceStore : AuthStore :=
  ⟨[withId (newDocOf 0 "r2" recRace "race.example" "9racerd" ⟨none, "unmatched"⟩) 0], 1⟩

/-- C1: the race the spec describes.  Both workers plan from the empty
store (`findOne` misses for both); the winner's run commits its insert
(`raceStore`); the loser's planned insert, applied to the post-race
store, is rejected by the unique index — and `processBubbleData` has no
handler for that rejection: the write phase returns the thrown error
(`Except.error ()`), which the catch block re-throws to the caller,
instead of converting the rejection into an `$addToSet` update.  So the
rejection IS propagated to the caller as an error, contradicting the
claim. -/
theorem C1_duplicate_key_rejection_propagates :
    processBubbleData 0 "r2" (some recRace) [] ⟨[], 0⟩ =
      .ok ({ status := "success", match_type := some "unmatched", reason := none,
             bubbleId := "r2" }, raceStore, []) ∧
    (planOf 0 "r1" (some recRace) [] ⟨[], 0⟩).1
      = WritePlan.insertPlan (newDocOf 0 "r1" recRace "race.example" "9racerd" ⟨none, "unmatched"⟩)
          { status := "success", match_type := some "unmatched", reason := none,
            bubbleId := "r1" } ∧
    applyPlan (planOf 0 "r1" (some recRace) [] ⟨[], 0⟩).1 raceStore = .error () := by
  decide

theorem updBubbleIds_key_fields (i : Nat) (bid : String) (d : AuthDoc) :
    (updBubbleIds i bid d).website_normalized = d.website_normalized ∧
    (updBubbleIds i bid d).address_normalized = d.address_normalized := by
  unfold updBubbleIds
  split
  · exact ⟨rfl, rfl⟩
  · exact ⟨rfl, rfl⟩

theorem sameKey_updBubbleIds {i : Nat} {bid : String} {a b : AuthDoc} :
    sameKey (updBubbleIds i bid a) (updBubbleIds i bid b) ↔ sameKey a b := by
  unfold sameKey
  rw [(updBubbleIds_key_fields i bid a).1, (updBubbleIds_key_fields i bid a).2,
      (updBubbleIds_key_fields i bid b).1, (updBubbleIds_key_fields i bid b).2]

theorem mem_updBubbleIds_of_mem {i : Nat} {bid x : String} {d : AuthDoc}
    (h : x ∈ d.bubble_ids) : x ∈ (updBubbleIds i bid d).bubble_ids := by
  unfold updBubbleIds
  by_cases ho : (d.oid == i) = true
  · rw [if_pos ho]
    by_cases hc : d.bubble_ids.contains bid = true
    · rw [if_pos hc]
      exact h
    · rw [if_neg hc]
      exact List.mem_append.mpr (Or.inl h)
  · rw [if_neg ho]
    exact h

theorem insertOne_some_guard {st : AuthStore} {d : NewAuthDoc} {st' : AuthStore}
    (h : insertOne st d = some st') :
    st.docs.any (keyMatches d.website_normalized d.address_normalized) = false := by
  unfold insertOne at h
  by_cases hg : st.docs.any (keyMatches d.website_normalized d.address_normalized) = true
  · rw [if_pos hg] at h
    cases h
  · simpa using hg

theorem not_sameKey_of_keyMatches_false {wn an : String} {a b : AuthDoc}
    (hb : b.website_normalized = wn) (hb2 : b.address_normalized = an)
    (h : keyMatches wn an a = false) : ¬ sameKey a b := by
  unfold keyMatches at h
  unfold sameKey
  rintro ⟨h1, h2⟩
  rw [hb] at h1
  rw [hb2] at h2
  simp [h1, h2] at h

theorem applyPlan_preserves_wf {p : WritePlan} {st : AuthStore} {res : JobResult}
    {st' : AuthStore} (h : applyPlan p st = .ok (res, st'))
    (hwf : WellFormedStore st) : WellFormedStore st' := by
  obtain ⟨hku, hif⟩ := hwf
  cases p with
  | noWrite r0 =>
    simp only [applyPlan] at h
    injection h with h1
    injection h1 with hres hst
    exact hst ▸ ⟨hku, hif⟩
  | updatePlan i bid0 r0 =>
    simp only [applyPlan] at h
    injection h with h1
    injection h1 with hres hst
    subst hst
    constructor
    · exact hku.map _ (fun a b hab hS => hab (sameKey_updBubbleIds.mp hS))
    · intro d hd
      obtain ⟨d0, hd0, rfl⟩ := List.mem_map.mp hd
      rw [updBubbleIds_oid]
      exact hif d0 hd0
  | insertPlan nd r0 =>
    simp only [applyPlan] at h
    cases hins : insertOne st nd with
    | none =>
      rw [hins] at h
      cases h
    | some st1 =>
      rw [hins] at h
      injection h with h1
      injection h1 with hres hst
      subst hst
      have hshape := insertOne_some_shape hins
      have hguard := insertOne_some_guard hins
      subst hshape
      constructor
      · rw [KeyUnique]
        rw [List.pairwise_append]
        refine ⟨hku, List.pairwise_singleton .. , ?_⟩
        intro a ha b hb
        rw [List.mem_singleton.mp hb]
        exact not_sameKey_of_keyMatches_false rfl rfl
          (by simpa using List.any_eq_false.mp hguard a ha)
      · intro d hd
        rcases List.mem_append.mp hd with h1 | h1
        · exact Nat.lt_succ_of_lt (hif d h1)
        · rw [List.mem_singleton.mp h1]
          exact Nat.lt_succ_self _

theorem reachable_wellformed {st : AuthStore} (h : Reachable st) : WellFormedStore st := by
  induction h with
  | init => exact ⟨List.Pairwise.nil, fun d hd => nomatch hd⟩
  | step _ hap ih => exact applyPlan_preserves_wf hap ih

theorem processBubbleData_duplicate_run (now : Nat) (bid : String) (r : BubbleRecord)
    (biz : List BusinessDoc) (st : AuthStore) (d : AuthDoc)
    (hne : ((normalizeUrl r.site_1).isEmpty && (normalizeString r.full_address_1).isEmpty) = false)
    (hfind : findOneByKey st (normalizeUrl r.site_1) (normalizeString r.full_address_1) = some d) :
    processBubbleData now bid (some r) biz st =
      .ok ({ status := "success", match_type := some "duplicate", reason := none,
             bubbleId := bid }, addToSetBubbleId st d.oid bid, []) := by
  unfold processBubbleData planOf
  simp [hne, hfind, applyPlan]

/-- C2: (i) every link-store state reachable from the empty collection by
completed write phases satisfies the key-uniqueness invariant (at most
one Authoritative Link Record per distinct dedup key); (ii) every single
write step (duplicate-merge update or guarded insert) preserves
well-formedness, hence the invariant; (iii) when two records computing
the same (fresh) dedup key are both processed to completion, exactly one
link record with that key exists afterwards and its `bubble_ids`
contains both identifiers. -/
theorem C2_key_invariant_and_merge :
    (∀ st : AuthStore, Reachable st → KeyUnique st) ∧
    (∀ (p : WritePlan) (st : AuthStore) (res : JobResult) (st' : AuthStore),
      applyPlan p st = .ok (res, st') → WellFormedStore st → WellFormedStore st') ∧
    (∀ (now1 now2 : Nat) (b1 b2 : String) (r1 r2 : BubbleRecord)
      (biz1 biz2 : List BusinessDoc) (st st1 st2 : AuthStore)
      (res1 res2 : JobResult) (qs1 qs2 : List BizQuery),
      WellFormedStore st →
      normalizeUrl r1.site_1 = normalizeUrl r2.site_1 →
      normalizeString r1.full_address_1 = normalizeString r2.full_address_1 →
      ((normalizeUrl r1.site_1).isEmpty && (normalizeString r1.full_address_1).isEmpty) = false →
      findOneByKey st (normalizeUrl r1.site_1) (normalizeString r1.full_address_1) = none →
      processBubbleData now1 b1 (some r1) biz1 st = .ok (res1, st1, qs1) →
      processBubbleData now2 b2 (some r2) biz2 st1 = .ok (res2, st2, qs2) →
      oneDocWithBoth st2 (normalizeUrl r1.site_1) (normalizeString r1.full_address_1) b1 b2
        = true) := by
  refine ⟨fun st h => (reachable_wellformed h).1,
          fun p st res st' h hwf => applyPlan_preserves_wf h hwf, ?_⟩
  intro now1 now2 b1 b2 r1 r2 biz1 biz2 st st1 st2 res1 res2 qs1 qs2
    hwf hw ha hne hmiss hrun1 hrun2
  have h1 := processBubbleData_insert_run now1 b1 r1 biz1 st hne hmiss
  rw [hrun1] at h1
  injection h1 with h1a
  injection h1a with hres1 h1b
  injection h1b with hst1 hqs1
  subst hst1
  have hkeyw : (withId (newDocOf now1 b1 r1 (normalizeUrl r1.site_1)
      (normalizeString r1.full_address_1) (matcherOf biz1 r1).1) st.nextId).website_normalized
      = normalizeUrl r1.site_1 := rfl
  have hne2 : ((normalizeUrl r2.site_1).isEmpty
      && (normalizeString r2.full_address_1).isEmpty) = false := by
    rw [← hw, ← ha]
    exact hne
  have hf2 : findOneByKey
      ⟨st.docs ++ [withId (newDocOf now1 b1 r1 (normalizeUrl r1.site_1)
          (normalizeString r1.full_address_1) (matcherOf biz1 r1).1) st.nextId], st.nextId + 1⟩
      (normalizeUrl r2.site_1) (normalizeString r2.full_address_1)
      = some (withId (newDocOf now1 b1 r1 (normalizeUrl r1.site_1)
          (normalizeString r1.full_address_1) (matcherOf biz1 r1).1) st.nextId) := by
    unfold findOneByKey
    rw [List.find?_append]
    have hmiss2 : st.docs.find? (keyMatches (normalizeUrl r2.site_1)
        (normalizeString r2.full_address_1)) = none := by
      rw [← hw, ← ha]
      exact hmiss
    rw [hmiss2, Option.none_or]
    rw [List.find?_cons_of_pos _ (by simp [keyMatches, withId, newDocOf, hw, ha])]
  have h2 := processBubbleData_duplicate_run now2 b2 r2 biz2 _ _ hne2 hf2
  rw [hrun2] at h2
  injection h2 with h2a
  injection h2a with hres2 h2b
  injection h2b with hst2 hqs2
  subst hst2
  unfold oneDocWithBoth addToSetBubbleId
  rw [show (⟨st.docs ++ [withId (newDocOf now1 b1 r1 (normalizeUrl r1.site_1)
        (normalizeString r1.full_address_1) (matcherOf biz1 r1).1) st.nextId],
      st.nextId + 1⟩ : AuthStore).docs
      = st.docs ++ [withId (newDocOf now1 b1 r1 (normalizeUrl r1.site_1)
        (normalizeString r1.full_address_1) (matcherOf biz1 r1).1) st.nextId] from rfl]
  rw [List.map_append, List.filter_append]
  have hnil : (st.docs.map (updBubbleIds (withId (newDocOf now1 b1 r1 (normalizeUrl r1.site_1)
      (normalizeString r1.full_address_1) (matcherOf biz1 r1).1) st.nextId).oid b2)).filter
      (keyMatches (normalizeUrl r1.site_1) (normalizeString r1.full_address_1)) = [] := by
    rw [List.filter_eq_nil_iff]
    intro a hamem
    obtain ⟨a0, ha0, rfl⟩ := List.mem_map.mp hamem
    rw [keyMatches_updBubbleIds]
    have := List.find?_eq_none.mp hmiss a0 ha0
    simpa using this
  rw [hnil]
  rw [List.map_singleton, List.filter_cons]
  have hkeyupd : keyMatches (normalizeUrl r1.site_1) (normalizeString r1.full_address_1)
      (updBubbleIds (withId (newDocOf now1 b1 r1 (normalizeUrl r1.site_1)
          (normalizeString r1.full_address_1) (matcherOf biz1 r1).1) st.nextId).oid b2
        (withId (newDocOf now1 b1 r1 (normalizeUrl r1.site_1)
          (normalizeString r1.full_address_1) (matcherOf biz1 r1).1) st.nextId)) = true := by
    rw [keyMatches_updBubbleIds]
    simp [keyMatches, withId, newDocOf]
  rw [if_pos hkeyupd]
  rw [List.filter_nil, List.nil_append]
  have hb1 : b1 ∈ (updBubbleIds (withId (newDocOf now1 b1 r1 (normalizeUrl r1.site_1)
      (normalizeString r1.full_address_1) (matcherOf biz1 r1).1) st.nextId).oid b2
      (withId (newDocOf now1 b1 r1 (normalizeUrl r1.site_1)
        (normalizeString r1.full_address_1) (matcherOf biz1 r1).1) st.nextId)).bubble_ids :=
    mem_updBubbleIds_of_mem (by simp [withId, newDocOf])
  have hb2 : b2 ∈ (updBubbleIds (withId (newDocOf now1 b1 r1 (normalizeUrl r1.site_1)
      (normalizeString r1.full_address_1) (matcherOf biz1 r1).1) st.nextId).oid b2
      (withId (newDocOf now1 b1 r1 (normalizeUrl r1.site_1)
        (normalizeString r1.full_address_1) (matcherOf biz1 r1).1) st.nextId)).bubble_ids :=
    mem_updBubbleIds_self b2 _ (by simp)
  simp [hb1, hb2]

/-- Two concrete records with the same dedup key, merged sequentially. -/
def recC2 : BubbleRecord :=
  { site_1 := some "https://www.c2.example", full_address_1 := none,
    name_1 := none, phone_1 := none, email_1 := none,
    Unique_ID_1 := none, Unique_ID := none }

def st1C2 : AuthStore :=
  ⟨[withId (newDocOf 0 "c1" recC2 "c2.example" "" ⟨none, "unmatched"⟩) 0], 1⟩

theorem C2_key_invariant_and_merge_witness :
    KeyUnique (⟨[], 0⟩ : AuthStore) ∧
    oneDocWithBoth (addToSetBubbleId st1C2 0 "c2") (normalizeUrl recC2.site_1)
      (normalizeString recC2.full_address_1) "c1" "c2" = true :=
  ⟨C2_key_invariant_and_merge.1 ⟨[], 0⟩ Reachable.init,
   C2_key_invariant_and_merge.2.2 0 0 "c1" "c2" recC2 recC2 [] [] ⟨[], 0⟩ st1C2
     (addToSetBubbleId st1C2 0 "c2")
     { status := "success", match_type := some "unmatched", reason := none, bubbleId := "c1" }
     { status := "success", match_type := some "duplicate", reason := none, bubbleId := "c2" }
     [] []
     ⟨List.Pairwise.nil, fun d hd => nomatch hd⟩
     rfl rfl (by decide) (by decide) (by decide) (by decide)⟩

end BubbleLinker
